import Mathlib

/-!
Shallow embedding of `jira-releaser.py` (GetStream/ci-utils).

The script is a straight-line release pipeline: resolve a release tag,
find the previous tag, list merged PRs between the two, extract Jira
issue ids from PR titles and branch names, ensure a Jira version record
exists, and attach it to every referenced issue.

External effects (HTTP round trips, git subprocess output, today's
date) are passed in explicitly as oracle values; Python exceptions are
modelled with `Except String` / explicit result inductives, carrying
the Python exception class name as the error string.  JSON values
returned by the remote APIs are modelled by the `Json` inductive, and
the outcome of Python's `json.loads` is modelled as `Option Json`
(`none` = the body was not valid JSON, so `json.loads` raises).
-/

/-- A JSON value, as produced by `json.loads`.  Objects are association
lists (the modelled inputs carry no duplicate keys). -/
inductive Json where
  | null
  | bool (b : Bool)
  | num (n : Int)
  | str (s : String)
  | arr (elems : List Json)
  | obj (fields : List (String × Json))

/-- Python `d.get(k)` (default `None`): `.error` models the
`AttributeError` raised when the receiver is not a dict. -/
def Json.getOpt (j : Json) (k : String) : Except String (Option Json) :=
  match j with
  | Json.obj fields => Except.ok (fields.lookup k)
  | _ => Except.error "AttributeError"

/-- Python `d[k]`: `KeyError` on a dict without the key, `TypeError`
when the receiver is not a dict (e.g. `None`). -/
def Json.sub (j : Json) (k : String) : Except String Json :=
  match j with
  | Json.obj fields =>
    match fields.lookup k with
    | some v => Except.ok v
    | none => Except.error "KeyError"
  | _ => Except.error "TypeError"

/-- Whether a JSON value is an object (a Python dict, the only
receiver on which `.get` does not raise `AttributeError`). -/
def Json.isObj : Json → Bool
  | Json.obj _ => true
  | _ => false

/-- Python `v == s` for an optional JSON value against a string
literal: only a JSON string with the same contents compares equal. -/
def pyEqStr (v : Option Json) (t : String) : Bool :=
  match v with
  | some (Json.str s) => s == t
  | _ => false

/-- The instance state of the `Jira` client class. -/
structure JiraState where
  project_key : String
  email : String
  api_key : String
  project : Option Json
  jira_url : String

/-- `Jira.__init__` (lines 12-17): `self.project = None`. -/
def Jira_init (project_key email api_key jira_url : String) : JiraState :=
  { project_key := project_key, email := email, api_key := api_key,
    project := none, jira_url := jira_url }

/-- `Jira.load_project` (lines 27-36): `self.project = json.loads(response.read())`.
`body` is the parse of the GET response body; an unparsable body makes
`json.loads` raise.  Returns the updated state and the project record. -/
def load_project (self : JiraState) (body : Option Json) : Except String (JiraState × Json) :=
  match body with
  | none => Except.error "JSONDecodeError"
  | some j => Except.ok ({ self with project := some j }, j)

/-- The JSON payload built by `Jira.assert_version` (lines 57-65). -/
structure VersionPayload where
  archived : Bool
  releaseDate : String
  name : String
  projectId : Json
  released : Bool

/-- Lines 57-65: the payload construction.  `self.project["id"]` raises
`TypeError` when `load_project` has not run (`self.project` is `None`)
and `KeyError` when the cached record has no `"id"` member. -/
def assert_version_payload (self : JiraState) (version today : String) :
    Except String VersionPayload :=
  match self.project with
  | none => Except.error "TypeError"
  | some proj =>
    match proj.sub "id" with
    | Except.error e => Except.error e
    | Except.ok pid =>
      Except.ok { archived := false, releaseDate := today, name := version,
                  projectId := pid, released := true }

/-- Outcome of `urllib.request.urlopen`: a 2xx response or an
`urllib.error.HTTPError`; each carries its body's `json.loads` result. -/
inductive HttpOutcome where
  | ok (body : Option Json)
  | httpError (body : Option Json)

/-- How a call to `Jira.assert_version` ends: a normal return (with the
payload it posted) or a propagating Python exception. -/
inductive AssertVersionResult where
  | returned (payload : VersionPayload)
  | raised (err : String)

/-- Whether the call ended in a propagating exception. -/
def AssertVersionResult.isRaised : AssertVersionResult → Bool
  | AssertVersionResult.raised _ => true
  | AssertVersionResult.returned _ => false

/-- The error-body text matched on line 76. -/
def alreadyExistsMsg : String := "A version with this name already exists in this project."

/-- The `try/except` of `Jira.assert_version` (lines 69-78), after the
payload was built.  On success the body is fed to `json.loads` and
discarded.  On `HTTPError` the body is parsed
(`json.loads(e.read().decode("utf8"))`, raising on a non-JSON body),
then `response.get("errors", {}).get("name")` is compared with
`alreadyExistsMsg`.  The source has no `raise` in the non-matching
branch, so both comparison outcomes return normally (line 78 only
prints in the matching one). -/
def assert_version_handle (payload : VersionPayload) (resp : HttpOutcome) :
    AssertVersionResult :=
  match resp with
  | HttpOutcome.ok none => AssertVersionResult.raised "JSONDecodeError"
  | HttpOutcome.ok (some _) => AssertVersionResult.returned payload
  | HttpOutcome.httpError none => AssertVersionResult.raised "JSONDecodeError"
  | HttpOutcome.httpError (some j) =>
    match j.getOpt "errors" with
    | Except.error e => AssertVersionResult.raised e
    | Except.ok errsOpt =>
      match (errsOpt.getD (Json.obj [])).getOpt "name" with
      | Except.error e => AssertVersionResult.raised e
      | Except.ok nameOpt =>
        if pyEqStr nameOpt alreadyExistsMsg then
          AssertVersionResult.returned payload
        else
          AssertVersionResult.returned payload

/-- `Jira.assert_version` (lines 54-78): build the payload, POST it
(`resp` is the oracle outcome), handle the response. -/
def assert_version (self : JiraState) (version today : String) (resp : HttpOutcome) :
    AssertVersionResult :=
  match assert_version_payload self version today with
  | Except.error e => AssertVersionResult.raised e
  | Except.ok payload => assert_version_handle payload resp

/-- The body sent by `Jira.add_fix_version_to_issue` (lines 41-43). -/
def add_fix_version_payload (version : String) : Json :=
  Json.obj [("update", Json.obj [("fixVersions",
    Json.arr [Json.obj [("add", Json.obj [("name", Json.str version)])]])])]

/-- `Jira.add_fix_version_to_issue` (lines 38-52): the PUT is not
wrapped in a `try`, so an `HTTPError` (`resp = some e`) propagates. -/
def add_fix_version_to_issue (resp : Option String) : Except String Unit :=
  match resp with
  | none => Except.ok ()
  | some e => Except.error e

/-- One step of Python `re.findall` for a pattern `<literal>\d+`
(Python advances one character after a failed position, and resumes
after the match end on success): at the current position, match the
literal `pre`, then a maximal non-empty digit run; return the token
and the rest of the input. -/
def matchPreDigits (pre text : List Char) : Option (List Char × List Char) :=
  if text.take pre.length = pre then
    if (text.drop pre.length).takeWhile Char.isDigit = [] then none
    else
      some (pre ++ (text.drop pre.length).takeWhile Char.isDigit,
        (text.drop pre.length).drop
          ((text.drop pre.length).takeWhile Char.isDigit).length)
  else none

/-- The scanning loop of Python `re.findall` for a pattern
`<literal pre>\d+`: scan left to right, emit each non-overlapping
leftmost match, continue after it.  `fuel` only forces structural
recursion; every step consumes at least one input character (a match
is non-empty), so `fuel = text.length` never runs out. -/
def re_findall_fuel (pre : List Char) : Nat → List Char → List (List Char)
  | 0, _ => []
  | _ + 1, [] => []
  | fuel + 1, c :: rest =>
    match matchPreDigits pre (c :: rest) with
    | some (tok, rem) => tok :: re_findall_fuel pre fuel rem
    | none => re_findall_fuel pre fuel rest

/-- Python `re.findall` for a pattern `<literal pre>\d+`. -/
def re_findall_pre_digits (pre text : List Char) : List (List Char) :=
  re_findall_fuel pre text.length text

/-- `re.findall(r"#[\d]+", logs)` on line 136. -/
def findTokens (cs : List Char) : List (List Char) :=
  re_findall_pre_digits [ '#' ] cs

/-- `re.findall(f"{jira_project_key}-[\d]+", text)` on lines 101-104,
with the project key taken as a literal (Jira keys carry no regex
metacharacters). -/
def findall_key (key text : List Char) : List (List Char) :=
  re_findall_pre_digits (key ++ [ '-' ]) text

/-- Python `t.split("#")` (single-character separator), line 136. -/
def splitHash : List Char → List (List Char)
  | [] => [[]]
  | c :: rest =>
    if c = '#' then [] :: splitHash rest
    else
      match splitHash rest with
      | [] => [[c]]
      | p :: ps => (c :: p) :: ps

/-- `Github.get_jira_id_from_pr` (lines 87-106): the PR metadata fetch
is oracled into `title` (`data["title"]`) and `headRef`
(`data["head"]["ref"]`); the two `re.findall` results are concatenated
in source order (title first, then branch). -/
def get_jira_id_from_pr (jira_project_key title headRef : String) : List String :=
  ((findall_key jira_project_key.toList title.toList)
    ++ (findall_key jira_project_key.toList headRef.toList)).map List.asString

/-- Python `"-" in t` for a single-character needle. -/
def has_hyphen (t : String) : Bool := t.toList.contains '-'

/-- Line 116: `tags = [t for t in tags if "-" not in t]`. -/
def filtered_tags (tags : List String) : List String :=
  tags.filter (fun t => !(has_hyphen t))

/-- `find_previous_version_tag` (lines 109-127).  `tags0` is the
decoded output of `git tag --sort -v:refname -l v[0-9]*`.  Note the
guard `len(tags) <= i` on line 124 can never fire (`list.index`
returns a valid index), so `tags[i + 1]` raises `IndexError` when
`version` is the last (oldest) element. -/
def find_previous_version_tag (tags0 : List String) (version : String) :
    Except String (Option String) :=
  (fun tags =>
    if version ∈ tags then
      (fun i =>
        if tags.length ≤ i then Except.ok none
        else
          match tags.get? (i + 1) with
          | some t => Except.ok (some t)
          | none => Except.error "IndexError")
      (tags.indexOf version)
    else Except.ok none)
  (filtered_tags tags0)

/-- The argv of the `git log` call in `list_merged_prs` (lines 132-134). -/
def list_merged_prs_cmd (prev_version version : String) : List String :=
  ["git", "log", prev_version ++ "..." ++ version, "--grep", "#", "--grep", "]"]

/-- `list_merged_prs` (lines 130-136), applied to the decoded output of
the `git log` call: `[t.split("#")[1] for t in re.findall(r"#[\d]+", logs)]`. -/
def list_merged_prs (logs : String) : List String :=
  (findTokens logs.toList).map (fun t => ((splitHash t).getD 1 []).asString)

/-- Line 196: `jira_issue_ids = list(set(jira_issue_ids))` (Python set
iteration order is unspecified; modelled by `List.dedup`). -/
def py_list_set (xs : List String) : List String := xs.dedup

/-- The attachment loop (lines 201-202): issue the PUT for each id in
order; the first `HTTPError` propagates, ending the loop and the run.
Returns the ids attached successfully (in order) and, if the loop was
cut short, the id whose attachment raised. -/
def attach_loop (resp : String → Option String) : List String → List String × Option String
  | [] => ([], none)
  | i :: rest =>
    match add_fix_version_to_issue (resp i) with
    | Except.ok _ =>
      (fun r => (i :: r.1, r.2)) (attach_loop resp rest)
    | Except.error _ => ([], some i)

/-- `re.match("^v\d+\.\d+\.\d+$", version)` tail: after the three digit
groups, Python's `$` accepts the end of the string or a single
trailing newline. -/
def release_tail_ok (cs : List Char) : Bool :=
  match cs with
  | [] => true
  | ['\n'] => true
  | _ => false

/-- Line 173: `re.match("^v\d+\.\d+\.\d+$", version)` as a Bool
(`\d+` is greedy; since `.` is not a digit, maximal-munch digit runs
are exact). -/
def re_match_release (s : String) : Bool :=
  match s.toList with
  | 'v' :: r1 =>
    match r1.takeWhile Char.isDigit, r1.dropWhile Char.isDigit with
    | [], _ => false
    | _ :: _, '.' :: r2 =>
      match r2.takeWhile Char.isDigit, r2.dropWhile Char.isDigit with
      | [], _ => false
      | _ :: _, '.' :: r3 =>
        match r3.takeWhile Char.isDigit, r3.dropWhile Char.isDigit with
        | [], _ => false
        | _ :: _, rest => release_tail_ok rest
      | _, _ => false
    | _, _ => false
  | _ => false

/-- One external call made by `main` to the issue tracker or code host
(the `git` subprocess calls are not tracker/code-host traffic). -/
inductive Call where
  | loadProject
  | getPr (pr_id : String)
  | assertVersion (version : String)
  | addFixVersion (issue_id version : String)

/-- The command-line arguments plus oracles for every external effect
`main` can perform. -/
structure Env where
  jira_project_key : String
  github_token : String
  github_repo_owner : String
  github_repo_name : String
  jira_email : String
  jira_api_key : String
  jira_url : String
  version_arg : Option String
  describe : String
  project_body : Option Json
  tags : List String
  log_output : String → String
  pr_title : String → String
  pr_branch : String → String
  version_resp : HttpOutcome
  attach_resp : String → Option String
  today : String

/-- Lines 166-172: `version = args.version; if not version: version =
git describe --tags` (Python `not` treats both `None` and `""` as
falsy; `describe` is the stripped, decoded subprocess output). -/
def resolve_version (env : Env) : String :=
  match env.version_arg with
  | some v => if v = "" then env.describe else v
  | none => env.describe

/-- The trace entries for the attachment loop's calls: every
successful PUT plus, when the loop was cut short, the failing one. -/
def attach_calls (version : String) (done : List String) (failed : Option String) :
    List Call :=
  done.map (fun i => Call.addFixVersion i version)
    ++ (match failed with
        | some i => [Call.addFixVersion i version]
        | none => [])

namespace Pipeline

/-- `main` (lines 139-202) from the version resolution on (the two
best-effort `git fetch` calls before it touch neither API).  Returns
the tracker/code-host calls made, in order, and the process outcome
(`Except.error` = an uncaught Python exception terminates the run). -/
def main (env : Env) : List Call × Except String Unit :=
  (fun version =>
    if re_match_release version then
      match load_project (Jira_init env.jira_project_key env.jira_email
          env.jira_api_key env.jira_url) env.project_body with
      | Except.error e => ([Call.loadProject], Except.error e)
      | Except.ok (jira1, _) =>
        match find_previous_version_tag env.tags version with
        | Except.error e => ([Call.loadProject], Except.error e)
        | Except.ok prevOpt =>
          (fun merged =>
            (fun ids =>
              match assert_version jira1 version env.today env.version_resp with
              | AssertVersionResult.raised e =>
                (Call.loadProject :: merged.map Call.getPr
                  ++ [Call.assertVersion version], Except.error e)
              | AssertVersionResult.returned _ =>
                (fun r =>
                  (Call.loadProject :: merged.map Call.getPr
                     ++ [Call.assertVersion version]
                     ++ attach_calls version r.1 r.2,
                   match r.2 with
                   | some i => Except.error ((env.attach_resp i).getD "HTTPError")
                   | none => Except.ok ()))
                (attach_loop env.attach_resp ids))
            (py_list_set (merged.flatMap (fun pr =>
              get_jira_id_from_pr env.jira_project_key (env.pr_title pr)
                (env.pr_branch pr)))))
          (list_merged_prs (env.log_output (prevOpt.getD (version ++ "~100"))))
    else ([], Except.ok ()))
  (resolve_version env)

end Pipeline

/-- A concrete Jira project record, as returned by the project GET. -/
def sampleProject : Json := Json.obj [("id", Json.num 10001)]

/-- A client state after a successful `load_project`. -/
def sampleState : JiraState :=
  { Jira_init "PROJ" "me" "key" "url" with project := some sampleProject }

/-- The payload `assert_version` builds from `sampleState` for version
`"v1.2.3"` on `"2026-01-01"`. -/
def samplePayload : VersionPayload :=
  { archived := false, releaseDate := "2026-01-01", name := "v1.2.3",
    projectId := Json.num 10001, released := true }

/-- A structured Jira error body that is not the duplicate-name error. -/
def otherErrorBody : Json :=
  Json.obj [("errors", Json.obj [("name", Json.str "Project must have a lead.")])]

/-- An argument environment whose resolved version string is not a
release tag. -/
def sampleBadEnv : Env :=
  { jira_project_key := "PROJ", github_token := "tok", github_repo_owner := "own",
    github_repo_name := "repo", jira_email := "me", jira_api_key := "key",
    jira_url := "url", version_arg := some "nightly-2026", describe := "",
    project_body := some sampleProject, tags := [], log_output := fun _ => "",
    pr_title := fun _ => "", pr_branch := fun _ => "",
    version_resp := HttpOutcome.ok (some Json.null), attach_resp := fun _ => none,
    today := "2026-01-01" }

/-! ## Helper lemmas -/

/-- Dropping the length of the matched `takeWhile` run is `dropWhile`. -/
theorem length_takeWhile_drop (p : Char → Bool) (l : List Char) :
    l.drop (l.takeWhile p).length = l.dropWhile p := by
  induction l with
  | nil => rfl
  | cons c rest ih =>
    rw [List.takeWhile_cons, List.dropWhile_cons]
    by_cases h : p c = true
    · simp only [if_pos h, List.length_cons, List.drop_succ_cons]
      exact ih
    · simp only [if_neg h, List.length_nil, List.drop_zero]

/-- A successful `matchPreDigits` yields the literal followed by a
non-empty digit run, and splits the input around the match. -/
theorem matchPreDigits_shape (pre text tok rem : List Char)
    (h : matchPreDigits pre text = some (tok, rem)) :
    ∃ ds, ds ≠ [] ∧ (∀ c ∈ ds, Char.isDigit c = true) ∧ tok = pre ++ ds
      ∧ text = tok ++ rem := by
  unfold matchPreDigits at h
  split at h
  · rename_i hk
    split at h
    · exact absurd h (by simp)
    · rename_i hds
      simp only [Option.some.injEq, Prod.mk.injEq] at h
      obtain ⟨h1, h2⟩ := h
      subst h1
      subst h2
      refine ⟨(text.drop pre.length).takeWhile Char.isDigit, hds,
        fun c hc => List.mem_takeWhile_imp hc, rfl, ?_⟩
      calc text
          = text.take pre.length ++ text.drop pre.length :=
            (List.take_append_drop _ _).symm
        _ = pre ++ ((text.drop pre.length).takeWhile Char.isDigit
              ++ (text.drop pre.length).dropWhile Char.isDigit) := by
            rw [hk, List.takeWhile_append_dropWhile]
        _ = (pre ++ (text.drop pre.length).takeWhile Char.isDigit)
              ++ (text.drop pre.length).dropWhile Char.isDigit := by
            rw [List.append_assoc]
        _ = (pre ++ (text.drop pre.length).takeWhile Char.isDigit)
              ++ (text.drop pre.length).drop
                  ((text.drop pre.length).takeWhile Char.isDigit).length := by
            rw [length_takeWhile_drop]
  · exact absurd h (by simp)

/-- Every token emitted by the scanner is the literal followed by a
non-empty digit run, and occurs in the scanned text. -/
theorem re_findall_fuel_sound (pre : List Char) :
    ∀ (fuel : Nat) (text t : List Char), t ∈ re_findall_fuel pre fuel text →
      (∃ ds, ds ≠ [] ∧ (∀ c ∈ ds, Char.isDigit c = true) ∧ t = pre ++ ds)
      ∧ ∃ p q, text = p ++ (t ++ q) := by
  intro fuel
  induction fuel with
  | zero =>
    intro text t ht
    simp [re_findall_fuel] at ht
  | succ fuel ih =>
    intro text t ht
    cases text with
    | nil => simp [re_findall_fuel] at ht
    | cons c rest =>
      rw [re_findall_fuel] at ht
      cases hm : matchPreDigits pre (c :: rest) with
      | some pr =>
        obtain ⟨tok, rem⟩ := pr
        rw [hm] at ht
        simp only [List.mem_cons] at ht
        obtain ⟨ds, hne, hdig, htok, hdecomp⟩ :=
          matchPreDigits_shape pre (c :: rest) tok rem hm
        rcases ht with rfl | ht
        · exact ⟨⟨ds, hne, hdig, htok⟩, [], rem, hdecomp⟩
        · obtain ⟨hshape, p, q, hpq⟩ := ih rem t ht
          refine ⟨hshape, tok ++ p, q, ?_⟩
          rw [hdecomp, hpq, List.append_assoc]
      | none =>
        rw [hm] at ht
        obtain ⟨hshape, p, q, hpq⟩ := ih rest t ht
        refine ⟨hshape, c :: p, q, ?_⟩
        rw [hpq]
        rfl

/-- `re_findall_pre_digits` soundness: token shape and occurrence. -/
theorem re_findall_sound (pre text t : List Char)
    (h : t ∈ re_findall_pre_digits pre text) :
    (∃ ds, ds ≠ [] ∧ (∀ c ∈ ds, Char.isDigit c = true) ∧ t = pre ++ ds)
    ∧ ∃ p q, text = p ++ (t ++ q) :=
  re_findall_fuel_sound pre text.length text t h

/-- `split("#")` on a hash-free list returns the list whole. -/
theorem splitHash_no_hash (l : List Char) (h : '#' ∉ l) : splitHash l = [l] := by
  induction l with
  | nil => rfl
  | cons c rest ih =>
    have hc : c ≠ '#' := by
      intro he
      subst he
      exact h (List.mem_cons_self _ _)
    have hr : '#' ∉ rest := fun hm => h (List.mem_cons_of_mem c hm)
    rw [splitHash, if_neg hc, ih hr]

/-- `"#<digits>".split("#")[1]` is the digit run. -/
theorem splitHash_token (ds : List Char) (h : '#' ∉ ds) :
    (splitHash ('#' :: ds)).getD 1 [] = ds := by
  rw [splitHash, if_pos rfl, splitHash_no_hash ds h]
  rfl

/-! ## Claim theorems -/

/-- Claim C1 (amended).  After a successful `load_project`, an HTTP
error whose JSON body reports the duplicate-name error is treated as
success — but so is every other HTTP error whose body parses as a JSON
object with its `errors` member absent or itself an object:
`assert_version` returns normally in all those cases, because the
source's `except` clause has no `raise` on the non-matching branch.
The fatal HTTP errors are exactly the remaining ones: a body that is
not valid JSON raises `JSONDecodeError`; a valid-JSON body that is not
an object, or an object whose `errors` member is not an object, raises
`AttributeError` in the chained `.get` calls.  The four conjuncts
cover every HTTP-error response. -/
theorem assert_version_swallows_json_http_errors (self : JiraState) (v d : String)
    (p : VersionPayload) (hp : assert_version_payload self v d = Except.ok p) :
    (∀ fields : List (String × Json),
        (fields.lookup "errors" = none
          ∨ ∃ efields, fields.lookup "errors" = some (Json.obj efields)) →
        assert_version self v d (HttpOutcome.httpError (some (Json.obj fields)))
          = AssertVersionResult.returned p)
    ∧ assert_version self v d (HttpOutcome.httpError none)
        = AssertVersionResult.raised "JSONDecodeError"
    ∧ (∀ j : Json, j.isObj = false →
        assert_version self v d (HttpOutcome.httpError (some j))
          = AssertVersionResult.raised "AttributeError")
    ∧ ∀ (fields : List (String × Json)) (e : Json),
        fields.lookup "errors" = some e → e.isObj = false →
        assert_version self v d (HttpOutcome.httpError (some (Json.obj fields)))
          = AssertVersionResult.raised "AttributeError" := by
  refine ⟨?_, ?_, ?_, ?_⟩
  · intro fields hcase
    unfold assert_version
    rw [hp]
    rcases hcase with heq | ⟨efields, heq⟩ <;>
      simp [assert_version_handle, Json.getOpt, heq, pyEqStr, ite_self]
  · unfold assert_version
    rw [hp]
    rfl
  · intro j hj
    unfold assert_version
    rw [hp]
    cases j with
    | obj fields => simp [Json.isObj] at hj
    | null => rfl
    | bool b => rfl
    | num n => rfl
    | str s => rfl
    | arr elems => rfl
  · intro fields e hlook he
    unfold assert_version
    rw [hp]
    cases e with
    | obj efields => simp [Json.isObj] at he
    | null => simp [assert_version_handle, Json.getOpt, hlook]
    | bool b => simp [assert_version_handle, Json.getOpt, hlook]
    | num n => simp [assert_version_handle, Json.getOpt, hlook]
    | str s => simp [assert_version_handle, Json.getOpt, hlook]
    | arr elems => simp [assert_version_handle, Json.getOpt, hlook]

/-- Claim C1, witness: the duplicate-name error body is treated as a
normal return, while a valid-JSON array body raises `AttributeError`. -/
theorem assert_version_swallows_json_http_errors_witness :
    assert_version sampleState "v1.2.3" "2026-01-01"
        (HttpOutcome.httpError (some (Json.obj
          [("errors", Json.obj [("name", Json.str alreadyExistsMsg)])])))
      = AssertVersionResult.returned samplePayload
    ∧ assert_version sampleState "v1.2.3" "2026-01-01"
        (HttpOutcome.httpError (some (Json.arr [])))
      = AssertVersionResult.raised "AttributeError" :=
  ⟨(assert_version_swallows_json_http_errors sampleState "v1.2.3" "2026-01-01"
        samplePayload rfl).1
      [("errors", Json.obj [("name", Json.str alreadyExistsMsg)])]
      (Or.inr ⟨[("name", Json.str alreadyExistsMsg)], rfl⟩),
   (assert_version_swallows_json_http_errors sampleState "v1.2.3" "2026-01-01"
        samplePayload rfl).2.2.1 (Json.arr []) rfl⟩

/-- Claim C1, counterexample to the claim as stated: an HTTP error
whose structured body reports a different error (`"Project must have a
lead."`) does NOT propagate out of `assert_version` — the call returns
normally, refuting "every other HTTP error propagates out of the
function and is fatal". -/
theorem assert_version_other_error_not_raised_cex :
    AssertVersionResult.isRaised
        (assert_version sampleState "v1.2.3" "2026-01-01"
          (HttpOutcome.httpError (some otherErrorBody))) = false := rfl

/-- Claim C2 (code bug).  On the spec's own tag sequence
`["v2.0.0", "v1.5.0", "v1.0.0"]`: target `"v1.5.0"` returns
`"v1.0.0"` and an absent target returns `None`, as claimed — but when
the target is the last (oldest) tag the code raises `IndexError`
(`tags[i + 1]` with `i + 1 = len(tags)`) instead of returning `None`,
because the guard `len(tags) <= i` on line 124 can never fire. -/
theorem find_previous_version_tag_cases :
    find_previous_version_tag ["v2.0.0", "v1.5.0", "v1.0.0"] "v1.5.0"
        = Except.ok (some "v1.0.0")
    ∧ find_previous_version_tag ["v2.0.0", "v1.5.0", "v1.0.0"] "v3.0.0"
        = Except.ok none
    ∧ find_previous_version_tag ["v2.0.0", "v1.5.0", "v1.0.0"] "v1.0.0"
        = Except.error "IndexError" :=
  ⟨rfl, rfl, rfl⟩

/-- Claim C3.  The commit-log query runs between the two refs with the
two `--grep` message filters `#` and `]`; from the resulting log text,
the returned sequence is exactly the numeric part (the token minus its
leading `#`) of each `#<digits>` token, in log order with duplicates
preserved, and every token is a `#`-prefixed non-empty digit run
occurring in the log text. -/
theorem list_merged_prs_spec (prev_version version logs : String) :
    list_merged_prs_cmd prev_version version
      = ["git", "log", prev_version ++ "..." ++ version, "--grep", "#", "--grep", "]"]
    ∧ list_merged_prs logs = (findTokens logs.toList).map (fun t => (t.drop 1).asString)
    ∧ ∀ t ∈ findTokens logs.toList,
        (∃ ds, ds ≠ [] ∧ (∀ c ∈ ds, Char.isDigit c = true) ∧ t = '#' :: ds)
        ∧ ∃ p q, logs.toList = p ++ (t ++ q) := by
  refine ⟨rfl, ?_, ?_⟩
  · unfold list_merged_prs
    apply List.map_congr_left
    intro t ht
    obtain ⟨⟨ds, hne, hdig, htok⟩, _⟩ := re_findall_sound [ '#' ] logs.toList t ht
    subst htok
    have hnh : '#' ∉ ds := fun hm => absurd (hdig _ hm) (by decide)
    show ((splitHash ('#' :: ds)).getD 1 []).asString = (('#' :: ds).drop 1).asString
    rw [splitHash_token ds hnh]
    rfl
  · intro t ht
    exact re_findall_sound [ '#' ] logs.toList t ht

/-- Claim C3, witness. -/
theorem list_merged_prs_spec_witness :
    list_merged_prs_cmd "v1.0.0" "v1.1.0"
      = ["git", "log", "v1.0.0...v1.1.0", "--grep", "#", "--grep", "]"] :=
  (list_merged_prs_spec "v1.0.0" "v1.1.0" "x").1

/-- Claim C4.  When the resolved version string does not match
`^v\d+\.\d+\.\d+$`, `main` makes no issue-tracker or code-host call and
terminates successfully. -/
theorem main_bad_version_no_calls (env : Env)
    (h : re_match_release (resolve_version env) = false) :
    Pipeline.main env = ([], Except.ok ()) := by
  simp [Pipeline.main, h]

/-- Claim C4, witness: version argument `"nightly-2026"`. -/
theorem main_bad_version_no_calls_witness :
    Pipeline.main sampleBadEnv = ([], Except.ok ()) :=
  main_bad_version_no_calls sampleBadEnv rfl

/-- Claim C5.  The attachment loop issues one PUT per issue id,
sequentially: the successfully attached ids are exactly the longest
prefix on which the oracle reports no HTTP error (those stay applied —
no rollback), and the loop stops fatally at the first failing id (no
retry, nothing after it is attempted). -/
theorem attach_loop_spec (resp : String → Option String) (issues : List String) :
    attach_loop resp issues
      = (issues.takeWhile (fun i => (resp i).isNone),
         (issues.dropWhile (fun i => (resp i).isNone)).head?) := by
  induction issues with
  | nil => rfl
  | cons i rest ih =>
    cases hr : resp i with
    | none =>
      simp [attach_loop, add_fix_version_to_issue, hr, List.takeWhile_cons,
        List.dropWhile_cons, ih]
    | some e =>
      simp [attach_loop, add_fix_version_to_issue, hr, List.takeWhile_cons,
        List.dropWhile_cons]

/-- Claim C6.  Issue-reference extraction scans the title and the
source-branch name; every returned reference is
`<projectKey>-<digits>` (non-empty digit run) occurring in one of the
two scanned fields; matching is case-sensitive on the key (lowercase
`abc-…` is not matched for key `ABC`), and the spec's example yields
exactly `["ABC-123", "ABC-124"]`. -/
theorem get_jira_id_from_pr_spec (key title branch : String) :
    (∀ s ∈ get_jira_id_from_pr key title branch,
       ∃ ds, ds ≠ [] ∧ (∀ c ∈ ds, Char.isDigit c = true)
         ∧ s = (key.toList ++ '-' :: ds).asString
         ∧ ((∃ p q, title.toList = p ++ ((key.toList ++ '-' :: ds) ++ q))
            ∨ (∃ p q, branch.toList = p ++ ((key.toList ++ '-' :: ds) ++ q))))
    ∧ get_jira_id_from_pr "ABC" "Fix ABC-123 and ABC-124" "chore/update"
        = ["ABC-123", "ABC-124"]
    ∧ get_jira_id_from_pr "ABC" "no ref here" "ABC-7-fix-thing" = ["ABC-7"]
    ∧ get_jira_id_from_pr "ABC" "Fix abc-123" "abc-124-branch" = [] := by
  refine ⟨?_, rfl, rfl, rfl⟩
  intro s hs
  unfold get_jira_id_from_pr at hs
  rw [List.mem_map] at hs
  obtain ⟨t, ht, rfl⟩ := hs
  rw [List.mem_append] at ht
  rcases ht with ht | ht
  · obtain ⟨⟨ds, hne, hdig, htok⟩, p, q, hpq⟩ :=
      re_findall_sound (key.toList ++ [ '-' ]) title.toList t ht
    subst htok
    refine ⟨ds, hne, hdig, ?_, Or.inl ⟨p, q, ?_⟩⟩
    · simp [List.append_assoc]
    · simpa [List.append_assoc] using hpq
  · obtain ⟨⟨ds, hne, hdig, htok⟩, p, q, hpq⟩ :=
      re_findall_sound (key.toList ++ [ '-' ]) branch.toList t ht
    subst htok
    refine ⟨ds, hne, hdig, ?_, Or.inr ⟨p, q, ?_⟩⟩
    · simp [List.append_assoc]
    · simpa [List.append_assoc] using hpq

/-- Claim C6, witness. -/
theorem get_jira_id_from_pr_spec_witness :
    get_jira_id_from_pr "ABC" "Fix ABC-123 and ABC-124" "chore/update"
      = ["ABC-123", "ABC-124"] :=
  (get_jira_id_from_pr_spec "ABC" "Fix ABC-123 and ABC-124" "chore/update").2.1

/-- Claim C7.  `list(set(...))` on the accumulated issue references has
set semantics: the result has no duplicates, contains exactly the
references gathered, and each gathered reference appears exactly once. -/
theorem py_list_set_spec (xs : List String) :
    (py_list_set xs).Nodup
    ∧ (∀ a, a ∈ py_list_set xs ↔ a ∈ xs)
    ∧ (∀ a, a ∈ xs → (py_list_set xs).count a = 1) := by
  refine ⟨List.nodup_dedup xs, fun a => List.mem_dedup, fun a ha => ?_⟩
  have h1 : a ∈ py_list_set xs := List.mem_dedup.mpr ha
  have h2 : (py_list_set xs).count a ≤ 1 :=
    List.nodup_iff_count_le_one.mp (List.nodup_dedup xs) a
  have h3 : 0 < (py_list_set xs).count a := List.count_pos_iff.mpr h1
  omega

/-- Claim C7, witness: a reference gathered twice appears once. -/
theorem py_list_set_spec_witness :
    (py_list_set ["ABC-123", "ABC-123"]).count "ABC-123" = 1 :=
  (py_list_set_spec ["ABC-123", "ABC-123"]).2.2 "ABC-123" (by decide)

/-- Claim C8.  The candidate sequence searched by
`find_previous_version_tag` excludes every tag containing a hyphen; in
particular `"v1.0.0-beta"` never appears in it. -/
theorem filtered_tags_no_hyphen :
    (∀ (tags : List String) (t : String), t ∈ filtered_tags tags →
        has_hyphen t = false)
    ∧ ∀ tags : List String, "v1.0.0-beta" ∉ filtered_tags tags := by
  have h1 : ∀ (tags : List String) (t : String), t ∈ filtered_tags tags →
      has_hyphen t = false := by
    intro tags t ht
    have hp := List.of_mem_filter ht
    simpa using hp
  refine ⟨h1, fun tags hmem => ?_⟩
  exact absurd (h1 tags _ hmem) (by decide)

/-- Claim C8, witness. -/
theorem filtered_tags_no_hyphen_witness : has_hyphen "v1.2.3" = false :=
  filtered_tags_no_hyphen.1 ["v1.2.3", "v1.0.0-beta"] "v1.2.3" (by decide)

/-- Claim C9.  `Jira.__init__` leaves the cached project `None`; with
the cache still `None`, `assert_version` raises (`TypeError` while
building the payload) instead of creating a version; and after a
successful `load_project`, the payload's `projectId` is exactly the
cached project record's `"id"` member. -/
theorem load_project_required_for_assert_version (v d : String) :
    (∀ pk em ak u : String, (Jira_init pk em ak u).project = none)
    ∧ (∀ (self : JiraState) (resp : HttpOutcome), self.project = none →
        assert_version self v d resp = AssertVersionResult.raised "TypeError")
    ∧ ∀ (self self' : JiraState) (body : Option Json) (proj pid : Json),
        load_project self body = Except.ok (self', proj) →
        proj.sub "id" = Except.ok pid →
        ∃ p, assert_version_payload self' v d = Except.ok p
          ∧ p.projectId = pid := by
  refine ⟨fun pk em ak u => rfl, ?_, ?_⟩
  · intro self resp hnone
    unfold assert_version assert_version_payload
    rw [hnone]
  · intro self self' body proj pid hload hsub
    cases body with
    | none => exact absurd hload (by simp [load_project])
    | some j =>
      simp only [load_project, Except.ok.injEq, Prod.mk.injEq] at hload
      obtain ⟨hself, hproj⟩ := hload
      subst hproj
      subst hself
      refine ⟨{ archived := false, releaseDate := d, name := v,
                projectId := pid, released := true }, ?_, rfl⟩
      simp [assert_version_payload, hsub]

/-- Claim C9, witness. -/
theorem load_project_required_for_assert_version_witness :
    assert_version (Jira_init "PROJ" "me" "key" "url") "v1.2.3" "2026-01-01"
        (HttpOutcome.ok (some Json.null)) = AssertVersionResult.raised "TypeError"
    ∧ ∃ p, assert_version_payload sampleState "v1.2.3" "2026-01-01" = Except.ok p
        ∧ p.projectId = Json.num 10001 :=
  ⟨(load_project_required_for_assert_version "v1.2.3" "2026-01-01").2.1
      (Jira_init "PROJ" "me" "key" "url") (HttpOutcome.ok (some Json.null)) rfl,
   (load_project_required_for_assert_version "v1.2.3" "2026-01-01").2.2
      (Jira_init "PROJ" "me" "key" "url") sampleState (some sampleProject)
      sampleProject (Json.num 10001) rfl rfl⟩

/-- Claim C10.  The idempotent swallow applies only to HTTP errors
with a JSON body: when the error body is not valid JSON, the decode
raises and propagates, terminating the run. -/
theorem assert_version_raises_on_invalid_json_error_body (self : JiraState)
    (v d : String) (p : VersionPayload)
    (hp : assert_version_payload self v d = Except.ok p) :
    assert_version self v d (HttpOutcome.httpError none)
      = AssertVersionResult.raised "JSONDecodeError" := by
  unfold assert_version
  rw [hp]
  rfl

/-- Claim C10, witness. -/
theorem assert_version_raises_on_invalid_json_error_body_witness :
    assert_version sampleState "v1.2.3" "2026-01-01" (HttpOutcome.httpError none)
      = AssertVersionResult.raised "JSONDecodeError" :=
  assert_version_raises_on_invalid_json_error_body sampleState "v1.2.3"
    "2026-01-01" samplePayload rfl
